import Mathlib

/-!
A verification development for a small todo-tracking service written in Rust.

The embedding models:
* the domain model (`src/domain/todo.rs`): `TodoStatus`, `Todo`, `CreateTodo`,
  `UpdateTodo`;
* the sqlite-backed repository (`src/infrastructure/sqlite_repo.rs`) as pure
  state-passing functions over a list of table rows.  A `Row` holds exactly the
  persisted column values: `status` as the literal string written by the code
  (`"pending"` or `"done"`) and the two timestamps as their RFC3339 text
  renderings, since the table stores `TEXT` columns and `ORDER BY created_at`
  compares those strings.  `Utc::now()` and `Uuid::new_v4()` are modelled by
  passing the produced timestamp string and the produced identifier explicitly;
* the application service (`src/application/todo_service.rs`) as a record of
  operations delegating to a repository record;
* the HTTP handlers (`src/http/routes/todos.rs`) with the UUID parser of the
  external `uuid` crate and the fallible service calls abstracted as function
  parameters (`Except Unit` plays the role of `anyhow::Result`, its error being
  a storage error);
* the terminal client's View-mode logic (`src/bin/tui.rs`): filtering,
  filter cycling, and the Enter (toggle) key handler.
-/

/-! ### Domain model — src/domain/todo.rs -/

inductive TodoStatus
  | Pending
  | Done
deriving DecidableEq, Repr

/-- The `Todo` entity.  `id` abstracts the UUID; `created_at` and `updated_at`
hold the RFC3339 rendering of the `DateTime<Utc>` values (the form in which the
code persists and compares them). -/
structure Todo where
  id : Nat
  title : String
  description : Option String
  status : TodoStatus
  created_at : String
  updated_at : String
deriving DecidableEq, Repr

structure CreateTodo where
  title : String
  description : Option String
deriving DecidableEq, Repr

structure UpdateTodo where
  title : Option String
  description : Option String
  status : Option TodoStatus
deriving DecidableEq, Repr

/-! ### Storage rows — the sqlite table of src/infrastructure/sqlite_repo.rs

One `Row` per table row, holding the persisted column values.  The store is the
list of rows in insertion order. -/

structure Row where
  id : Nat
  title : String
  description : Option String
  status : String
  created_at : String
  updated_at : String
deriving DecidableEq, Repr

abbrev Store := List Row

/-- Serialization of a status used by `create` and `update` when binding the
`status` column (`match status { Pending => "pending", Done => "done" }`). -/
def statusToString : TodoStatus → String
  | .Pending => "pending"
  | .Done => "done"

/-- Decoding of the `status` column in `row_to_todo`:
`match status_str { "pending" => Pending, "done" => Done, _ => Pending }`. -/
def parseStatus (s : String) : TodoStatus :=
  if s = "pending" then TodoStatus.Pending
  else if s = "done" then TodoStatus.Done
  else TodoStatus.Pending

/-- `row_to_todo` from src/infrastructure/sqlite_repo.rs.  Timestamp parsing
(`parse_from_rfc3339`) round-trips the stored string, so the model keeps the
string itself. -/
def row_to_todo (r : Row) : Todo :=
  { id := r.id, title := r.title, description := r.description,
    status := parseStatus r.status, created_at := r.created_at,
    updated_at := r.updated_at }

/-- The descending `created_at` comparison behind
`SELECT ... ORDER BY created_at DESC`: `a` may precede `b` iff
`b.created_at ≤ a.created_at` in the lexical (byte-wise) string order sqlite
uses for `TEXT`. -/
def createdDesc (a b : Row) : Prop := b.created_at ≤ a.created_at

instance : DecidableRel createdDesc := fun a b =>
  decidable_of_iff (b.created_at.toList ≤ a.created_at.toList)
    String.le_iff_toList_le.symm

instance : IsTotal Row createdDesc :=
  ⟨fun a b => le_total b.created_at a.created_at⟩

instance : IsTrans Row createdDesc :=
  ⟨fun _ _ _ hab hbc => le_trans hbc hab⟩

namespace SqliteTodoRepository

/-- `create`: inserts a fresh row and returns the in-memory `Todo`.
`now` is the string `Utc::now().to_rfc3339()` produced during the call and
`newId` the freshly generated UUID. -/
def create (now : String) (newId : Nat) (input : CreateTodo) (store : Store) :
    Todo × Store :=
  let row : Row :=
    { id := newId, title := input.title, description := input.description,
      status := statusToString TodoStatus.Pending,
      created_at := now, updated_at := now }
  ({ id := newId, title := input.title, description := input.description,
     status := TodoStatus.Pending, created_at := now, updated_at := now },
   store ++ [row])

/-- `get`: `SELECT ... WHERE id = ?1` with `fetch_optional`, decoded by
`row_to_todo`. -/
def get (id : Nat) (store : Store) : Option Todo :=
  (store.find? (fun r => r.id == id)).map row_to_todo

/-- `list`: `SELECT ... ORDER BY created_at DESC`, each row decoded by
`row_to_todo`. -/
def list (store : Store) : List Todo :=
  (List.insertionSort createdDesc store).map row_to_todo

/-- `update`: fetch the existing row via `get`, overlay the present optional
fields, stamp `updated_at`, and write `title`, `description`, `status`,
`updated_at` back to the row with this id (`created_at` is not in the SET
list).  Returns `none` and leaves the store untouched when the id is absent. -/
def update (now : String) (id : Nat) (input : UpdateTodo) (store : Store) :
    Option Todo × Store :=
  match get id store with
  | none => (none, store)
  | some todo0 =>
    let todo : Todo :=
      { todo0 with
        title := match input.title with | some t => t | none => todo0.title,
        description :=
          match input.description with
          | some d => some d
          | none => todo0.description,
        status := match input.status with | some s => s | none => todo0.status,
        updated_at := now }
    (some todo,
     store.map (fun r =>
       if r.id == id then
         { r with title := todo.title, description := todo.description,
                  status := statusToString todo.status,
                  updated_at := todo.updated_at }
       else r))

/-- `delete`: `DELETE ... WHERE id = ?1`; the returned Bool is
`rows_affected() > 0`. -/
def delete (id : Nat) (store : Store) : Bool × Store :=
  (store.any (fun r => r.id == id), store.filter (fun r => r.id != id))

end SqliteTodoRepository

/-! ### Application service — src/application/todo_service.rs

The `TodoRepository` trait as a record of operations over an abstract store
type, and `TodoServiceImpl` wrapping a repository and delegating each method. -/

structure TodoRepositoryOps (σ : Type) where
  create : String → Nat → CreateTodo → σ → Todo × σ
  get : Nat → σ → Option Todo
  list : σ → List Todo
  update : String → Nat → UpdateTodo → σ → Option Todo × σ
  delete : Nat → σ → Bool × σ

/-- The concrete sqlite repository packaged as a `TodoRepositoryOps`. -/
def sqliteRepoOps : TodoRepositoryOps Store :=
  { create := SqliteTodoRepository.create, get := SqliteTodoRepository.get,
    list := SqliteTodoRepository.list, update := SqliteTodoRepository.update,
    delete := SqliteTodoRepository.delete }

structure TodoServiceImpl (σ : Type) where
  repo : TodoRepositoryOps σ

def TodoServiceImpl.create {σ : Type} (s : TodoServiceImpl σ) (now : String)
    (newId : Nat) (input : CreateTodo) (st : σ) : Todo × σ :=
  s.repo.create now newId input st

def TodoServiceImpl.get {σ : Type} (s : TodoServiceImpl σ) (id : Nat) (st : σ) :
    Option Todo :=
  s.repo.get id st

def TodoServiceImpl.list {σ : Type} (s : TodoServiceImpl σ) (st : σ) :
    List Todo :=
  s.repo.list st

def TodoServiceImpl.update {σ : Type} (s : TodoServiceImpl σ) (now : String)
    (id : Nat) (input : UpdateTodo) (st : σ) : Option Todo × σ :=
  s.repo.update now id input st

def TodoServiceImpl.delete {σ : Type} (s : TodoServiceImpl σ) (id : Nat)
    (st : σ) : Bool × σ :=
  s.repo.delete id st

/-! ### HTTP handlers — src/http/routes/todos.rs

Responses: `okJson` is a 200 with the Todo body, `noContent` the bare 204
status, `errResp` a `(StatusCode, String)` error pair.  The UUID parser and the
service calls are function parameters; a service call yields
`Except Unit α` where `Except.error ()` stands for a storage error. -/

inductive HttpOut
  | okJson : Todo → HttpOut
  | noContent : HttpOut
  | errResp : Nat → String → HttpOut
deriving DecidableEq, Repr

def HttpOut.code : HttpOut → Nat
  | .okJson _ => 200
  | .noContent => 204
  | .errResp c _ => c

def HttpOut.hasBody : HttpOut → Bool
  | .noContent => false
  | _ => true

/-- `parse_id`: `Uuid::parse_str(s)` mapped to 400 "invalid id" on failure. -/
def parse_id (parseUuid : String → Option Nat) (s : String) :
    Except HttpOut Nat :=
  match parseUuid s with
  | some u => Except.ok u
  | none => Except.error (HttpOut.errResp 400 "invalid id")

/-- The status-field match at the top of `update_todo`: `"pending"`/`"done"`
decode, any other present string is rejected with 400 "invalid status" before
the service is consulted. -/
def decode_status_field : Option String → Except HttpOut (Option TodoStatus)
  | some s =>
    if s = "pending" then Except.ok (some TodoStatus.Pending)
    else if s = "done" then Except.ok (some TodoStatus.Done)
    else Except.error (HttpOut.errResp 400 "invalid status")
  | none => Except.ok none

/-- `GET /todos/id`. -/
def get_todo (parseUuid : String → Option Nat)
    (svcGet : Nat → Except Unit (Option Todo)) (idStr : String) : HttpOut :=
  match parse_id parseUuid idStr with
  | Except.error e => e
  | Except.ok id =>
    match svcGet id with
    | Except.error _ => HttpOut.errResp 500 "internal error"
    | Except.ok none => HttpOut.errResp 404 "Not found"
    | Except.ok (some t) => HttpOut.okJson t

/-- The JSON body of `PUT /todos/id`. -/
structure UpdateBody where
  title : Option String
  description : Option String
  status : Option String
deriving DecidableEq, Repr

/-- `PUT /todos/id`. -/
def update_todo (parseUuid : String → Option Nat)
    (svcUpdate : Nat → UpdateTodo → Except Unit (Option Todo))
    (idStr : String) (payload : UpdateBody) : HttpOut :=
  match parse_id parseUuid idStr with
  | Except.error e => e
  | Except.ok id =>
    match decode_status_field payload.status with
    | Except.error e => e
    | Except.ok status =>
      let inp : UpdateTodo :=
        { title := payload.title, description := payload.description,
          status := status }
      match svcUpdate id inp with
      | Except.error _ => HttpOut.errResp 500 "internal error"
      | Except.ok none => HttpOut.errResp 404 "Not found"
      | Except.ok (some t) => HttpOut.okJson t

/-- `DELETE /todos/id`. -/
def delete_todo (parseUuid : String → Option Nat)
    (svcDelete : Nat → Except Unit Bool) (idStr : String) : HttpOut :=
  match parse_id parseUuid idStr with
  | Except.error e => e
  | Except.ok id =>
    match svcDelete id with
    | Except.error _ => HttpOut.errResp 500 "internal error"
    | Except.ok true => HttpOut.noContent
    | Except.ok false => HttpOut.errResp 404 "Not found"

/-! ### Terminal client, View mode — src/bin/tui.rs

The `Tui` namespace avoids the clash between the client's `Filter` enum and
the Mathlib name; the Rust names are kept inside it. -/

namespace Tui

structure ListEntry where
  id : Nat
  status : TodoStatus
  title : String
  description : Option String
deriving DecidableEq, Repr

inductive Filter
  | All
  | Pending
  | Done
deriving DecidableEq, Repr

/-- The parts of `App` that the View-mode logic touches.  `list_selection`
models `list_state.select(..)`. -/
structure AppView where
  items : List ListEntry
  selected : Nat
  filter : Filter
  filtered_indices : List Nat
  list_selection : Option Nat
deriving DecidableEq, Repr

/-- The `include` match inside `recompute_filtered`. -/
def filterIncludes : Filter → TodoStatus → Bool
  | .All, _ => true
  | .Pending, .Pending => true
  | .Pending, .Done => false
  | .Done, .Done => true
  | .Done, .Pending => false

/-- The index-collecting loop of `recompute_filtered`:
`for (i, e) in items.iter().enumerate() { if include push i }`,
started at index `i`. -/
def filteredIdx (f : Filter) : Nat → List ListEntry → List Nat
  | _, [] => []
  | i, e :: es =>
    if filterIncludes f e.status then i :: filteredIdx f (i + 1) es
    else filteredIdx f (i + 1) es

/-- `App::recompute_filtered`: rebuild `filtered_indices`, then clamp the
selection (empty filtered set clears it; an overflowing index clamps to the
last valid one). -/
def recompute_filtered (app : AppView) : AppView :=
  let fi := filteredIdx app.filter 0 app.items
  if fi.length = 0 then
    { app with filtered_indices := fi, selected := 0, list_selection := none }
  else
    let sel := if app.selected ≥ fi.length then fi.length - 1 else app.selected
    { app with filtered_indices := fi, selected := sel,
               list_selection := some sel }

/-- The `'f'` key match arm: `All => Pending, Pending => Done, Done => All`. -/
def cycleFilter : Filter → Filter
  | .All => .Pending
  | .Pending => .Done
  | .Done => .All

/-- Pressing `f` in View mode: advance the filter, recompute. -/
def pressFilterCycle (app : AppView) : AppView :=
  recompute_filtered { app with filter := cycleFilter app.filter }

/-- The status flip computed by the Enter arm:
`Pending => Done, Done => Pending`. -/
def toggleStatus : TodoStatus → TodoStatus
  | .Pending => .Done
  | .Done => .Pending

def todoToEntry (t : Todo) : ListEntry :=
  { id := t.id, status := t.status, title := t.title,
    description := t.description }

/-- `App::load`: re-fetch the list through the service (a pass-through to the
repository) and recompute the filtered view. -/
def appLoad (app : AppView) (store : Store) : AppView :=
  recompute_filtered
    { app with items := (SqliteTodoRepository.list store).map todoToEntry }

/-- The entry the Enter arm operates on: `app.items.get(app.selected)` —
the *selected* index applied directly to the *unfiltered* item list. -/
def enterTargetEntry (app : AppView) : Option ListEntry :=
  app.items.get? app.selected

/-- The entry the `e` and `d` arms (and the details pane) operate on:
`app.filtered_indices.get(app.selected)` then `app.items.get(idx)` — the
highlighted entry of the filtered view. -/
def selectedFilteredEntry (app : AppView) : Option ListEntry :=
  (app.filtered_indices.get? app.selected).bind fun idx => app.items.get? idx

/-- The Enter key arm in View mode: look up `items[selected]`, send an
`update` toggling that entry's status (result discarded), then reload. -/
def pressEnterView (now : String) (app : AppView) (store : Store) :
    AppView × Store :=
  match enterTargetEntry app with
  | none => (app, store)
  | some entry =>
    let inp : UpdateTodo :=
      { title := none, description := none,
        status := some (toggleStatus entry.status) }
    let res := SqliteTodoRepository.update now entry.id inp store
    (appLoad app res.2, res.2)

end Tui

/-! ### Concrete instances used by the witnesses and counterexamples -/

/-- A sample persisted row (recognized status, present description). -/
def sampleRow : Row :=
  { id := 5, title := "existing", description := some "d0", status := "pending",
    created_at := "2024-01-01T00:00:00+00:00",
    updated_at := "2024-01-01T00:00:00+00:00" }

/-- The decoded form of `sampleRow`. -/
def sampleTodo : Todo := row_to_todo sampleRow

/-- A row whose persisted status string is unrecognized. -/
def weirdRow : Row :=
  { id := 0, title := "t", description := none, status := "archived",
    created_at := "2024-01-01T00:00:00+00:00",
    updated_at := "2024-01-01T00:00:00+00:00" }

/-- A freshly opened View-mode app over two loaded items, filter `All`
(the initial `App` of `run_app` after `load`). -/
def twoItemApp (p d : Tui.ListEntry) : Tui.AppView :=
  Tui.recompute_filtered
    { items := [p, d], selected := 0, filter := Tui.Filter.All,
      filtered_indices := [], list_selection := none }

/-- The pending entry of the two-item scenario. -/
def c2PendingEntry : Tui.ListEntry :=
  { id := 0, status := TodoStatus.Pending, title := "a", description := none }

/-- The done entry of the two-item scenario. -/
def c2DoneEntry : Tui.ListEntry :=
  { id := 1, status := TodoStatus.Done, title := "b", description := none }

/-- The loaded two-item View state with filter `All`. -/
def c2App : Tui.AppView := twoItemApp c2PendingEntry c2DoneEntry

/-- A pending row created second (so it sorts first in the list view). -/
def c1RowA : Row :=
  { id := 0, title := "A", description := none, status := "pending",
    created_at := "2024-01-02T00:00:00+00:00",
    updated_at := "2024-01-02T00:00:00+00:00" }

/-- A done row created first (so it sorts second in the list view). -/
def c1RowB : Row :=
  { id := 1, title := "B", description := none, status := "done",
    created_at := "2024-01-01T00:00:00+00:00",
    updated_at := "2024-01-01T00:00:00+00:00" }

/-- The store backing the C1 scenario. -/
def c1Store : Store := [c1RowA, c1RowB]

/-- The View state after loading `c1Store` under filter `Done`: items are
`[A (Pending), B (Done)]`, the filtered view is `[1]`, selection index 0 —
the highlighted entry is B. -/
def c1App : Tui.AppView :=
  Tui.appLoad
    { items := [], selected := 0, filter := Tui.Filter.Done,
      filtered_indices := [], list_selection := none } c1Store

/-! ### Theorems -/

/-- Claim C7: the application service is a pure pass-through — for each of the
five operations and every input and store, `TodoServiceImpl`'s result (value
and resulting state) is exactly the wrapped repository's result. -/
theorem c7_service_is_pass_through {σ : Type} (repo : TodoRepositoryOps σ) :
    (∀ now newId input st,
      (TodoServiceImpl.mk repo).create now newId input st
        = repo.create now newId input st) ∧
    (∀ id st, (TodoServiceImpl.mk repo).get id st = repo.get id st) ∧
    (∀ st, (TodoServiceImpl.mk repo).list st = repo.list st) ∧
    (∀ now id input st,
      (TodoServiceImpl.mk repo).update now id input st
        = repo.update now id input st) ∧
    (∀ id st, (TodoServiceImpl.mk repo).delete id st = repo.delete id st) :=
  ⟨fun _ _ _ _ => rfl, fun _ _ => rfl, fun _ => rfl, fun _ _ _ _ => rfl,
   fun _ _ => rfl⟩

/-- Claim C9: row decoding maps status `"pending"` to `Pending`, `"done"` to
`Done`, and any unrecognized status string to `Pending` rather than failing;
`get` and `list` still succeed on such a row (its decoded todo is produced). -/
theorem c9_permissive_status_decode (r : Row) (store : Store) (hmem : r ∈ store)
    (h1 : r.status ≠ "pending") (h2 : r.status ≠ "done") :
    parseStatus "pending" = TodoStatus.Pending ∧
    parseStatus "done" = TodoStatus.Done ∧
    (row_to_todo r).status = TodoStatus.Pending ∧
    row_to_todo r ∈ SqliteTodoRepository.list store ∧
    (SqliteTodoRepository.get r.id store).isSome = true := by
  refine ⟨rfl, rfl, ?_, ?_, ?_⟩
  · simp [row_to_todo, parseStatus, h1, h2]
  · exact List.mem_map_of_mem row_to_todo
      (((List.perm_insertionSort createdDesc store).mem_iff).mpr hmem)
  · simp only [SqliteTodoRepository.get, Option.isSome_map']
    refine (List.find?_isSome).mpr ⟨r, hmem, ?_⟩
    show (r.id == r.id) = true
    exact beq_self_eq_true r.id

/-- Witness for C9 at a concrete row with status string `"archived"`. -/
theorem c9_witness :
    parseStatus "pending" = TodoStatus.Pending ∧
    parseStatus "done" = TodoStatus.Done ∧
    (row_to_todo weirdRow).status = TodoStatus.Pending ∧
    row_to_todo weirdRow ∈ SqliteTodoRepository.list [weirdRow] ∧
    (SqliteTodoRepository.get weirdRow.id [weirdRow]).isSome = true :=
  c9_permissive_status_decode weirdRow [weirdRow] (by simp) (by decide)
    (by decide)

/-- Claim C5: for an id not present in the store, `get` returns `none`,
`update` returns `none` and leaves the store untouched, and `delete` returns
`false` and leaves the store untouched; all three return values instead of
raising errors. -/
theorem c5_absent_id_behaviour (id : Nat) (store : Store)
    (habsent : ∀ r ∈ store, r.id ≠ id) :
    SqliteTodoRepository.get id store = none ∧
    (∀ now input,
      SqliteTodoRepository.update now id input store = (none, store)) ∧
    SqliteTodoRepository.delete id store = (false, store) := by
  have hnone : store.find? (fun r => r.id == id) = none :=
    List.find?_eq_none.mpr fun x hx => by simpa using habsent x hx
  have hget : SqliteTodoRepository.get id store = none := by
    simp [SqliteTodoRepository.get, hnone]
  refine ⟨hget, ?_, ?_⟩
  · intro now input
    simp [SqliteTodoRepository.update, hget]
  · have hany : store.any (fun r => r.id == id) = false :=
      List.any_eq_false.mpr fun x hx => by simpa using habsent x hx
    have hfilter : store.filter (fun r => r.id != id) = store :=
      List.filter_eq_self.mpr fun x hx => by simpa using habsent x hx
    simp [SqliteTodoRepository.delete, hany, hfilter]

/-- Witness for C5 at id 99 against a one-row store. -/
theorem c5_witness :
    SqliteTodoRepository.get 99 [sampleRow] = none ∧
    (∀ now input,
      SqliteTodoRepository.update now 99 input [sampleRow]
        = (none, [sampleRow])) ∧
    SqliteTodoRepository.delete 99 [sampleRow] = (false, [sampleRow]) :=
  c5_absent_id_behaviour 99 [sampleRow] (by decide)

/-- Claim C3: `create` with a non-empty title returns a todo carrying the
fresh id, the input's title and description, status `Pending`, and
`created_at = updated_at =` the creation instant; `get` on the fresh id then
returns that same todo. -/
theorem c3_create_then_get (now : String) (newId : Nat) (input : CreateTodo)
    (store : Store) (_htitle : input.title ≠ "")
    (hfresh : ∀ r ∈ store, r.id ≠ newId) :
    (SqliteTodoRepository.create now newId input store).1.id = newId ∧
    (SqliteTodoRepository.create now newId input store).1.title
      = input.title ∧
    (SqliteTodoRepository.create now newId input store).1.description
      = input.description ∧
    (SqliteTodoRepository.create now newId input store).1.status
      = TodoStatus.Pending ∧
    (SqliteTodoRepository.create now newId input store).1.created_at = now ∧
    (SqliteTodoRepository.create now newId input store).1.updated_at = now ∧
    SqliteTodoRepository.get newId
        (SqliteTodoRepository.create now newId input store).2
      = some (SqliteTodoRepository.create now newId input store).1 := by
  have hnone : store.find? (fun r => r.id == newId) = none :=
    List.find?_eq_none.mpr fun x hx => by simpa using hfresh x hx
  refine ⟨rfl, rfl, rfl, rfl, rfl, rfl, ?_⟩
  simp [SqliteTodoRepository.get, SqliteTodoRepository.create, hnone,
        row_to_todo, parseStatus, statusToString]

/-- Witness for C3: create id 7 with title "Test" over a one-row store. -/
theorem c3_witness :
    (SqliteTodoRepository.create "2024-02-01T00:00:00+00:00" 7
        ⟨"Test", some "First"⟩ [sampleRow]).1.id = 7 ∧
    (SqliteTodoRepository.create "2024-02-01T00:00:00+00:00" 7
        ⟨"Test", some "First"⟩ [sampleRow]).1.title = "Test" ∧
    (SqliteTodoRepository.create "2024-02-01T00:00:00+00:00" 7
        ⟨"Test", some "First"⟩ [sampleRow]).1.description = some "First" ∧
    (SqliteTodoRepository.create "2024-02-01T00:00:00+00:00" 7
        ⟨"Test", some "First"⟩ [sampleRow]).1.status = TodoStatus.Pending ∧
    (SqliteTodoRepository.create "2024-02-01T00:00:00+00:00" 7
        ⟨"Test", some "First"⟩ [sampleRow]).1.created_at
      = "2024-02-01T00:00:00+00:00" ∧
    (SqliteTodoRepository.create "2024-02-01T00:00:00+00:00" 7
        ⟨"Test", some "First"⟩ [sampleRow]).1.updated_at
      = "2024-02-01T00:00:00+00:00" ∧
    SqliteTodoRepository.get 7
        (SqliteTodoRepository.create "2024-02-01T00:00:00+00:00" 7
          ⟨"Test", some "First"⟩ [sampleRow]).2
      = some (SqliteTodoRepository.create "2024-02-01T00:00:00+00:00" 7
          ⟨"Test", some "First"⟩ [sampleRow]).1 :=
  c3_create_then_get "2024-02-01T00:00:00+00:00" 7 ⟨"Test", some "First"⟩
    [sampleRow] (by decide) (by decide)

/-- Claim C4: `update` applies the optional-field overlay — absent fields
leave the todo's fields unchanged, present fields overwrite them, `updated_at`
is stamped with the update instant unconditionally (even if values are equal),
and `id` and `created_at` are untouched; with all three fields absent only
`updated_at` changes. -/
theorem c4_update_optional_overlay (now : String) (id : Nat)
    (input : UpdateTodo) (store : Store) (t : Todo)
    (hget : SqliteTodoRepository.get id store = some t) :
    (∃ t2, (SqliteTodoRepository.update now id input store).1 = some t2 ∧
      t2.id = t.id ∧ t2.created_at = t.created_at ∧
      t2.title = (match input.title with | some x => x | none => t.title) ∧
      t2.description =
        (match input.description with
         | some d => some d
         | none => t.description) ∧
      t2.status = (match input.status with | some s => s | none => t.status) ∧
      t2.updated_at = now) ∧
    (input.title = none → input.description = none → input.status = none →
      (SqliteTodoRepository.update now id input store).1
        = some { t with updated_at := now }) := by
  constructor
  · exact ⟨{ t with
        title := match input.title with | some x => x | none => t.title,
        description :=
          match input.description with
          | some d => some d
          | none => t.description,
        status := match input.status with | some s => s | none => t.status,
        updated_at := now },
      by simp [SqliteTodoRepository.update, hget], rfl, rfl, rfl, rfl, rfl,
      rfl⟩
  · intro h1 h2 h3
    simp [SqliteTodoRepository.update, hget, h1, h2, h3]

/-- Witness for C4: update the sample row's status only, and separately with
all fields absent. -/
theorem c4_witness :
    (∃ t2,
      (SqliteTodoRepository.update "2024-03-01T00:00:00+00:00" 5
          ⟨none, none, some TodoStatus.Done⟩ [sampleRow]).1 = some t2 ∧
      t2.id = sampleTodo.id ∧ t2.created_at = sampleTodo.created_at ∧
      t2.title = (match (none : Option String) with
                  | some x => x
                  | none => sampleTodo.title) ∧
      t2.description = (match (none : Option String) with
                        | some d => some d
                        | none => sampleTodo.description) ∧
      t2.status = (match some TodoStatus.Done with
                   | some s => s
                   | none => sampleTodo.status) ∧
      t2.updated_at = "2024-03-01T00:00:00+00:00") ∧
    (SqliteTodoRepository.update "2024-03-01T00:00:00+00:00" 5
        ⟨none, none, none⟩ [sampleRow]).1
      = some { sampleTodo with updated_at := "2024-03-01T00:00:00+00:00" } := by
  constructor
  · exact (c4_update_optional_overlay "2024-03-01T00:00:00+00:00" 5
      ⟨none, none, some TodoStatus.Done⟩ [sampleRow] sampleTodo (by decide)).1
  · exact (c4_update_optional_overlay "2024-03-01T00:00:00+00:00" 5
      ⟨none, none, none⟩ [sampleRow] sampleTodo (by decide)).2 rfl rfl rfl

/-- Claim C10: through `update`, a present description never becomes absent —
if the fetched todo's description is `some d`, the updated todo's description
is `some` of the input description when present (possibly the empty string)
and still `some d` otherwise; and a todo's description at creation is exactly
the `CreateTodo` input's, so only creation can introduce an absent one. -/
theorem c10_description_stays_present (now : String) (id : Nat)
    (input : UpdateTodo) (store : Store) (t : Todo) (d : String)
    (hget : SqliteTodoRepository.get id store = some t)
    (hd : t.description = some d) :
    (∃ t2, (SqliteTodoRepository.update now id input store).1 = some t2 ∧
      t2.description = some (input.description.getD d) ∧
      t2.description ≠ none) ∧
    (∀ now2 newId cinput st,
      (SqliteTodoRepository.create now2 newId cinput st).1.description
        = cinput.description) := by
  constructor
  · refine ⟨{ t with
        title := match input.title with | some x => x | none => t.title,
        description :=
          match input.description with
          | some d2 => some d2
          | none => t.description,
        status := match input.status with | some s => s | none => t.status,
        updated_at := now },
      by simp [SqliteTodoRepository.update, hget], ?_, ?_⟩
    · show (match input.description with
            | some d2 => some d2
            | none => t.description) = some (input.description.getD d)
      cases input.description with
      | none => simpa using hd
      | some d2 => rfl
    · show (match input.description with
            | some d2 => some d2
            | none => t.description) ≠ none
      cases input.description with
      | none => simp [hd]
      | some d2 => simp
  · intro now2 newId cinput st
    rfl

/-- Witness for C10: an update with an absent description against the sample
row keeps the description `some "d0"`. -/
theorem c10_witness :
    (∃ t2,
      (SqliteTodoRepository.update "2024-03-01T00:00:00+00:00" 5
          ⟨some "new title", none, none⟩ [sampleRow]).1 = some t2 ∧
      t2.description = some ((none : Option String).getD "d0") ∧
      t2.description ≠ none) ∧
    (∀ now2 newId cinput st,
      (SqliteTodoRepository.create now2 newId cinput st).1.description
        = cinput.description) :=
  c10_description_stays_present "2024-03-01T00:00:00+00:00" 5
    ⟨some "new title", none, none⟩ [sampleRow] sampleTodo "d0" (by decide)
    (by decide)

/-- Claim C8: the HTTP layer's outcome-to-status mapping — unparsable path id
gives 400 for GET, PUT and DELETE; entity absence gives 404 for the three
entity routes; a PUT status string other than "pending"/"done" gives 400
without consulting the service (the response is independent of the service
function); a storage error gives 500; a successful DELETE returns the bare
204 response with no body. -/
theorem c8_http_status_codes (parseUuid : String → Option Nat) (idStr : String)
    (svcGet : Nat → Except Unit (Option Todo))
    (svcUpdate : Nat → UpdateTodo → Except Unit (Option Todo))
    (svcDelete : Nat → Except Unit Bool) (body : UpdateBody) :
    (parseUuid idStr = none →
      get_todo parseUuid svcGet idStr = HttpOut.errResp 400 "invalid id" ∧
      update_todo parseUuid svcUpdate idStr body
        = HttpOut.errResp 400 "invalid id" ∧
      delete_todo parseUuid svcDelete idStr
        = HttpOut.errResp 400 "invalid id") ∧
    (∀ id, parseUuid idStr = some id →
      (svcGet id = Except.ok none →
        (get_todo parseUuid svcGet idStr).code = 404) ∧
      (svcGet id = Except.error () →
        (get_todo parseUuid svcGet idStr).code = 500) ∧
      (svcDelete id = Except.ok false →
        (delete_todo parseUuid svcDelete idStr).code = 404) ∧
      (svcDelete id = Except.error () →
        (delete_todo parseUuid svcDelete idStr).code = 500) ∧
      (svcDelete id = Except.ok true →
        delete_todo parseUuid svcDelete idStr = HttpOut.noContent ∧
        (delete_todo parseUuid svcDelete idStr).hasBody = false) ∧
      (∀ st, decode_status_field body.status = Except.ok st →
        (svcUpdate id { title := body.title, description := body.description,
                        status := st } = Except.ok none →
          (update_todo parseUuid svcUpdate idStr body).code = 404) ∧
        (svcUpdate id { title := body.title, description := body.description,
                        status := st } = Except.error () →
          (update_todo parseUuid svcUpdate idStr body).code = 500)) ∧
      (∀ s, body.status = some s → s ≠ "pending" → s ≠ "done" →
        (update_todo parseUuid svcUpdate idStr body).code = 400 ∧
        ∀ svcUpdate2,
          update_todo parseUuid svcUpdate idStr body
            = update_todo parseUuid svcUpdate2 idStr body)) := by
  constructor
  · intro hp
    refine ⟨?_, ?_, ?_⟩ <;>
      simp [get_todo, update_todo, delete_todo, parse_id, hp]
  · intro id hp
    refine ⟨?_, ?_, ?_, ?_, ?_, ?_, ?_⟩
    · intro hg; simp [get_todo, parse_id, hp, hg, HttpOut.code]
    · intro hg; simp [get_todo, parse_id, hp, hg, HttpOut.code]
    · intro hdel; simp [delete_todo, parse_id, hp, hdel, HttpOut.code]
    · intro hdel; simp [delete_todo, parse_id, hp, hdel, HttpOut.code]
    · intro hdel
      constructor
      · simp [delete_todo, parse_id, hp, hdel]
      · simp [delete_todo, parse_id, hp, hdel, HttpOut.hasBody]
    · intro st hst
      constructor
      · intro hu
        simp [update_todo, parse_id, hp, hst, hu, HttpOut.code]
      · intro hu
        simp [update_todo, parse_id, hp, hst, hu, HttpOut.code]
    · intro s hs hsp hsd
      have hdec : decode_status_field body.status
          = Except.error (HttpOut.errResp 400 "invalid status") := by
        simp [decode_status_field, hs, hsp, hsd]
      constructor
      · simp [update_todo, parse_id, hp, hdec, HttpOut.code]
      · intro svcUpdate2
        simp [update_todo, parse_id, hp, hdec]

/-- Counterexample to C2 as stated: from filter `All` over one Pending and one
Done item, pressing filter-cycle twice does NOT land back on `All` with both
items visible — it lands on `Done` with only the Done item visible. -/
theorem c2_counterexample :
    ¬ ((Tui.pressFilterCycle (Tui.pressFilterCycle c2App)).filter
          = Tui.Filter.All ∧
       (Tui.pressFilterCycle (Tui.pressFilterCycle c2App)).filtered_indices
          = [0, 1]) ∧
    (Tui.pressFilterCycle (Tui.pressFilterCycle c2App)).filter
      = Tui.Filter.Done ∧
    (Tui.pressFilterCycle (Tui.pressFilterCycle c2App)).filtered_indices
      = [1] := by
  decide

/-- Claim C2 (amended): starting from filter `All` over a loaded list with one
Pending and one Done item, one filter-cycle press shows only the Pending item,
a second press lands on `Done` showing only the Done item, and a third press —
not the second — returns to `All` with both items visible; the filter mode
advances through the cycle All to Pending to Done to All. -/
theorem c2_filter_cycle (p d : Tui.ListEntry)
    (hp : p.status = TodoStatus.Pending) (hd : d.status = TodoStatus.Done) :
    (twoItemApp p d).filter = Tui.Filter.All ∧
    (twoItemApp p d).filtered_indices = [0, 1] ∧
    (Tui.pressFilterCycle (twoItemApp p d)).filter = Tui.Filter.Pending ∧
    (Tui.pressFilterCycle (twoItemApp p d)).filtered_indices = [0] ∧
    (Tui.pressFilterCycle (Tui.pressFilterCycle (twoItemApp p d))).filter
      = Tui.Filter.Done ∧
    (Tui.pressFilterCycle
        (Tui.pressFilterCycle (twoItemApp p d))).filtered_indices = [1] ∧
    (Tui.pressFilterCycle (Tui.pressFilterCycle
        (Tui.pressFilterCycle (twoItemApp p d)))).filter = Tui.Filter.All ∧
    (Tui.pressFilterCycle (Tui.pressFilterCycle
        (Tui.pressFilterCycle (twoItemApp p d)))).filtered_indices = [0, 1] ∧
    Tui.cycleFilter Tui.Filter.All = Tui.Filter.Pending ∧
    Tui.cycleFilter Tui.Filter.Pending = Tui.Filter.Done ∧
    Tui.cycleFilter Tui.Filter.Done = Tui.Filter.All := by
  refine ⟨?_, ?_, ?_, ?_, ?_, ?_, ?_, ?_, rfl, rfl, rfl⟩ <;>
    simp [twoItemApp, Tui.pressFilterCycle, Tui.recompute_filtered,
          Tui.cycleFilter, Tui.filteredIdx, Tui.filterIncludes, hp, hd]

/-- Witness for C2 (amended) at the concrete two-entry scenario. -/
theorem c2_filter_cycle_witness :
    (twoItemApp c2PendingEntry c2DoneEntry).filter = Tui.Filter.All ∧
    (twoItemApp c2PendingEntry c2DoneEntry).filtered_indices = [0, 1] ∧
    (Tui.pressFilterCycle (twoItemApp c2PendingEntry c2DoneEntry)).filter
      = Tui.Filter.Pending ∧
    (Tui.pressFilterCycle
        (twoItemApp c2PendingEntry c2DoneEntry)).filtered_indices = [0] ∧
    (Tui.pressFilterCycle (Tui.pressFilterCycle
        (twoItemApp c2PendingEntry c2DoneEntry))).filter = Tui.Filter.Done ∧
    (Tui.pressFilterCycle (Tui.pressFilterCycle
        (twoItemApp c2PendingEntry c2DoneEntry))).filtered_indices = [1] ∧
    (Tui.pressFilterCycle (Tui.pressFilterCycle (Tui.pressFilterCycle
        (twoItemApp c2PendingEntry c2DoneEntry)))).filter = Tui.Filter.All ∧
    (Tui.pressFilterCycle (Tui.pressFilterCycle (Tui.pressFilterCycle
        (twoItemApp c2PendingEntry c2DoneEntry)))).filtered_indices = [0, 1] ∧
    Tui.cycleFilter Tui.Filter.All = Tui.Filter.Pending ∧
    Tui.cycleFilter Tui.Filter.Pending = Tui.Filter.Done ∧
    Tui.cycleFilter Tui.Filter.Done = Tui.Filter.All :=
  c2_filter_cycle c2PendingEntry c2DoneEntry rfl rfl

/-- Claim C1 fails on the code: in the loaded `c1App` state (filter `Done`,
highlighted entry is the Done item with id 1), the Enter arm looks up
`items[selected]` instead of `items[filtered_indices[selected]]`, so it
toggles the hidden Pending item with id 0 — its row flips to "done" — while
the highlighted item's row is left as it was.  This contradicts the list
widget's own caption "highlighted = target for Enter/d/e" and the `e`/`d`
arms, which both index through `filtered_indices`. -/
theorem c1_enter_toggles_wrong_item :
    (Tui.selectedFilteredEntry c1App).map Tui.ListEntry.id = some 1 ∧
    (Tui.enterTargetEntry c1App).map Tui.ListEntry.id = some 0 ∧
    (c1Store.find? (fun r => r.id == 0)).map Row.status = some "pending" ∧
    ((Tui.pressEnterView "2024-01-03T00:00:00+00:00" c1App c1Store).2.find?
        (fun r => r.id == 0)).map Row.status = some "done" ∧
    ((Tui.pressEnterView "2024-01-03T00:00:00+00:00" c1App c1Store).2.find?
        (fun r => r.id == 1)).map Row.status = some "done" := by
  decide

/-- Claim C6: `list` returns the stored todos ordered by `created_at`
descending and the empty collection on the empty store.  The db column is
`TEXT`, so `ORDER BY created_at DESC` is the lexical string order; the
hypotheses order the three creation timestamps lexically, which for the
persisted RFC3339 renderings of instants t1 < t2 < t3 coincides with the
chronological order.  Conjuncts: empty store; every `list` result is a
permutation of the decoded store; every `list` result is pairwise descending
in `created_at`; and the three-create scenario comes back newest first. -/
theorem c6_list_created_desc (s1 s2 s3 : String) (id1 id2 id3 : Nat)
    (i1 i2 i3 : CreateTodo) (h12 : s1 < s2) (h23 : s2 < s3) :
    SqliteTodoRepository.list [] = [] ∧
    (∀ store : Store,
      (SqliteTodoRepository.list store).Perm (store.map row_to_todo)) ∧
    (∀ store : Store, (SqliteTodoRepository.list store).Pairwise
      (fun a b => b.created_at ≤ a.created_at)) ∧
    SqliteTodoRepository.list
        (SqliteTodoRepository.create s3 id3 i3
          (SqliteTodoRepository.create s2 id2 i2
            (SqliteTodoRepository.create s1 id1 i1 []).2).2).2
      = [(SqliteTodoRepository.create s3 id3 i3
            (SqliteTodoRepository.create s2 id2 i2
              (SqliteTodoRepository.create s1 id1 i1 []).2).2).1,
         (SqliteTodoRepository.create s2 id2 i2
            (SqliteTodoRepository.create s1 id1 i1 []).2).1,
         (SqliteTodoRepository.create s1 id1 i1 []).1] := by
  have h13 : s1 < s3 := lt_trans h12 h23
  have n12 : ¬ s2 ≤ s1 := not_le.mpr h12
  have n23 : ¬ s3 ≤ s2 := not_le.mpr h23
  have n13 : ¬ s3 ≤ s1 := not_le.mpr h13
  refine ⟨rfl, ?_, ?_, ?_⟩
  · intro store
    exact (List.perm_insertionSort createdDesc store).map row_to_todo
  · intro store
    exact (List.sorted_insertionSort createdDesc store).map row_to_todo
      fun a b h => h
  · simp [SqliteTodoRepository.list, SqliteTodoRepository.create,
          List.insertionSort, List.orderedInsert, createdDesc, n12, n23, n13,
          row_to_todo, parseStatus, statusToString]

/-- Witness for C6 at three concrete RFC3339 timestamps in increasing order. -/
theorem c6_witness :
    SqliteTodoRepository.list [] = [] ∧
    SqliteTodoRepository.list
        (SqliteTodoRepository.create "2024-01-03T00:00:00+00:00" 3 ⟨"c", none⟩
          (SqliteTodoRepository.create "2024-01-02T00:00:00+00:00" 2 ⟨"b", none⟩
            (SqliteTodoRepository.create "2024-01-01T00:00:00+00:00" 1
              ⟨"a", none⟩ []).2).2).2
      = [(SqliteTodoRepository.create "2024-01-03T00:00:00+00:00" 3 ⟨"c", none⟩
            (SqliteTodoRepository.create "2024-01-02T00:00:00+00:00" 2
              ⟨"b", none⟩
              (SqliteTodoRepository.create "2024-01-01T00:00:00+00:00" 1
                ⟨"a", none⟩ []).2).2).1,
         (SqliteTodoRepository.create "2024-01-02T00:00:00+00:00" 2 ⟨"b", none⟩
            (SqliteTodoRepository.create "2024-01-01T00:00:00+00:00" 1
              ⟨"a", none⟩ []).2).1,
         (SqliteTodoRepository.create "2024-01-01T00:00:00+00:00" 1
            ⟨"a", none⟩ []).1] := by
  have h := c6_list_created_desc "2024-01-01T00:00:00+00:00"
    "2024-01-02T00:00:00+00:00" "2024-01-03T00:00:00+00:00" 1 2 3
    ⟨"a", none⟩ ⟨"b", none⟩ ⟨"c", none⟩
    (String.lt_iff_toList_lt.mpr (by decide))
    (String.lt_iff_toList_lt.mpr (by decide))
  exact ⟨h.1, h.2.2.2⟩

/-- Witness for C8: each branch of the mapping exercised at concrete parsers,
services and bodies. -/
theorem c8_witness :
    get_todo (fun _ => none) (fun _ => Except.ok none) "bad"
      = HttpOut.errResp 400 "invalid id" ∧
    (get_todo (fun _ => some 7) (fun _ => Except.ok none) "x").code = 404 ∧
    (get_todo (fun _ => some 7) (fun _ => Except.error ()) "x").code = 500 ∧
    (delete_todo (fun _ => some 7) (fun _ => Except.ok false) "x").code
      = 404 ∧
    delete_todo (fun _ => some 7) (fun _ => Except.ok true) "x"
      = HttpOut.noContent ∧
    (update_todo (fun _ => some 7) (fun _ _ => Except.ok none) "x"
        ⟨none, none, some "done"⟩).code = 404 ∧
    (update_todo (fun _ => some 7) (fun _ _ => Except.ok none) "x"
        ⟨none, none, some "archived"⟩).code = 400 := by
  have h1 := (c8_http_status_codes (fun _ => none) "bad"
    (fun _ => Except.ok none) (fun _ _ => Except.ok none)
    (fun _ => Except.ok false) ⟨none, none, none⟩).1 rfl
  have h2 := (c8_http_status_codes (fun _ => some 7) "x"
    (fun _ => Except.ok none) (fun _ _ => Except.ok none)
    (fun _ => Except.ok false) ⟨none, none, some "done"⟩).2 7 rfl
  have h3 := (c8_http_status_codes (fun _ => some 7) "x"
    (fun _ => Except.error ()) (fun _ _ => Except.ok none)
    (fun _ => Except.ok true) ⟨none, none, some "archived"⟩).2 7 rfl
  refine ⟨h1.1, h2.1 rfl, h3.2.1 rfl, h2.2.2.1 rfl, ?_, ?_, ?_⟩
  · exact (h3.2.2.2.2.1 rfl).1
  · exact (h2.2.2.2.2.2.1 (some TodoStatus.Done) rfl).1 rfl
  · exact (h3.2.2.2.2.2.2 "archived" rfl (by decide) (by decide)).1
